import Mathlib

/-! Verification of the calendar, formatting and clock logic of the
`_pytime_windows.py` module (a pure-Python reimplementation of CPython's
`time` module on top of raw Win32 calls).

Python integers are modelled on `Int`; Python's floor division and
nonnegative remainder by a positive divisor coincide with `Int`'s `/` and `%`
(Euclidean division by a positive divisor).  Python floats sampled from OS
clocks are abstracted as exact rationals, and OS state (timezone snapshot,
performance-counter frequency, raw counter and FILETIME readings) is passed
explicitly as parameters, since the module only ever reads it. -/

/-- Payload of a Python 9-tuple of integers, as passed to `struct_time(...)`
and unpacked by `struct_time.__new__` into the nine named attributes. -/
structure Tuple9 where
  f0 : Int
  f1 : Int
  f2 : Int
  f3 : Int
  f4 : Int
  f5 : Int
  f6 : Int
  f7 : Int
  f8 : Int
deriving DecidableEq

/-- Model of a `struct_time` instance.  `struct_time` subclasses `tuple`:
`items` is the content of the underlying tuple object, and the nine `tm_*`
fields are the instance attributes assigned by `__new__`.  All sequence
behaviour (`len`, indexing, `==`, `<`) is inherited from `tuple` and hence
acts on `items` only. -/
structure struct_time where
  items : List Int
  tm_year : Int
  tm_mon : Int
  tm_mday : Int
  tm_hour : Int
  tm_min : Int
  tm_sec : Int
  tm_wday : Int
  tm_yday : Int
  tm_isdst : Int
deriving DecidableEq

/-- Model of `struct_time.__new__`.  The source calls `super().__new__(cls)`
with no iterable argument, which builds the empty tuple, and then unpacks
`args[0]` into the nine named instance attributes. -/
def structTimeNew (a : Tuple9) : struct_time :=
  ⟨[], a.f0, a.f1, a.f2, a.f3, a.f4, a.f5, a.f6, a.f7, a.f8⟩

/-- Elementwise lexicographic `<` of Python tuples of integers (a shorter
tuple that is a prefix of a longer one compares less). -/
def pyListLt : List Int → List Int → Bool
  | _, [] => false
  | [], _ :: _ => true
  | x :: xs, y :: ys => if x < y then true else if y < x then false else pyListLt xs ys

/-- Equality test `tuple.__eq__` performs on two `struct_time` values: it
compares the underlying tuple contents. -/
def pyTupleEq (x y : struct_time) : Bool := x.items == y.items

/-- Ordering test `tuple.__lt__` performs on two `struct_time` values. -/
def pyTupleLt (x y : struct_time) : Bool := pyListLt x.items y.items

/-- Model of `_is_leap`. -/
def _is_leap (year : Int) : Bool :=
  (year % 4 == 0 && year % 100 != 0) || (year % 400 == 0)

/-- Model of the module-level `_month_days` table. -/
def _month_days : List Int := [31, 28, 31, 30, 31, 30, 31, 31, 30, 31, 30, 31]

/-- The `mdays = _month_days.copy(); if _is_leap(year): mdays[1] = 29` idiom
repeated in `localtime`, `mktime` and `_calc_yday`. -/
def _patched_mdays (year : Int) : List Int :=
  if _is_leap year then _month_days.set 1 29 else _month_days

/-- Model of `_calc_weekday` (Sakamoto's congruence, shifted so 0 = Monday). -/
def _calc_weekday (year month day : Int) : Int :=
  let t : List Int := [0, 3, 2, 5, 0, 3, 5, 1, 4, 6, 2, 4]
  let y := year - (if month < 3 then 1 else 0)
  let w := (y + y / 4 - y / 100 + y / 400 + t.getD (month - 1).toNat 0 + day) % 7
  (w - 1) % 7

/-- Model of `_calc_yday`: day plus the lengths of the preceding months
(`sum(mdays[:month-1])`); the module only calls it with months 1–12, where
the `toNat` clamp agrees with Python's slice. -/
def _calc_yday (year month day : Int) : Int :=
  day + ((_patched_mdays year).take (month - 1).toNat).sum

/-- The `366 if _is_leap(year) else 365` expression of `localtime` and
`mktime`. -/
def year_days (year : Int) : Int := if _is_leap year then 366 else 365

/-- Model of the `while 1:` year loop of `localtime`: starting from the epoch
year, subtract whole-year day counts while they fit; returns the resolved
year together with the remaining day count. -/
def yearLoop (days year : Int) : Int × Int :=
  if days ≥ year_days year then yearLoop (days - year_days year) (year + 1)
  else (year, days)
termination_by days.toNat
decreasing_by
  rename_i h
  have h365 : (365 : Int) ≤ year_days year := by
    unfold year_days; split <;> omega
  omega

/-- Model of the `for mlen in mdays:` month loop of `localtime`: subtract
month lengths while `days + 1 > mlen`, advancing the month; returns the
remaining day count and the resolved month. -/
def monthLoop : Int → Int → List Int → Int × Int
  | days, month, [] => (days, month)
  | days, month, mlen :: rest =>
      if days + 1 > mlen then monthLoop (days - mlen) (month + 1) rest
      else (days, month)

/-- Model of `localtime(seconds)` on an explicitly supplied integer seconds
argument (the other branch of the source reads the wall clock instead). -/
def localtime (seconds : Int) : struct_time :=
  let second := seconds % 60
  let seconds1 := seconds / 60
  let minute := seconds1 % 60
  let seconds2 := seconds1 / 60
  let hour := seconds2 % 24
  let days := seconds2 / 24
  let yr := yearLoop days 1970
  let year := yr.1
  let mdays := _patched_mdays year
  let mr := monthLoop yr.2 1 mdays
  let month := mr.2
  let day := mr.1 + 1
  let wday := _calc_weekday year month day
  let yday := _calc_yday year month day
  structTimeNew ⟨year, month, day, hour, minute, second, wday, yday, 0⟩

/-- Model of `gmtime(seconds)` on an explicitly supplied seconds argument:
the source body just forwards to `localtime(seconds)`. -/
def gmtime (seconds : Int) : struct_time := localtime seconds

/-- Snapshot of the two fields of the Windows TIME_ZONE_INFORMATION structure
that the offset computation reads (both in minutes). -/
structure TZInfo where
  Bias : Int
  DaylightBias : Int
deriving DecidableEq

/-- Model of `_get_local_utc_offset_seconds`; the timezone snapshot the
source re-reads from the OS is passed explicitly. -/
def _get_local_utc_offset_seconds (tzi : TZInfo) (isdst_flag : Int) : Int :=
  let bias := if isdst_flag > 0 then tzi.Bias + tzi.DaylightBias else tzi.Bias
  bias * 60

/-- Days contributed by whole years `a, a+1, ..., b-1`, exactly as the
`for y in range(1970, year)` loop of `mktime` accumulates them (generalized
over the start year for the proofs about `yearLoop`). -/
def days_in_years (a b : Int) : Int :=
  ((List.range (b - a).toNat).map (fun i : Nat => year_days (a + (i : Int)))).sum

/-- Model of `mktime`. -/
def mktime (tzi : TZInfo) (tuple : struct_time) : Int :=
  let year := tuple.tm_year
  let mon := tuple.tm_mon
  let mday := tuple.tm_mday
  let hour := tuple.tm_hour
  let minute := tuple.tm_min
  let sec := tuple.tm_sec
  let days0 := days_in_years 1970 year
  let mdays := _patched_mdays year
  let days1 := days0 + (mdays.take (mon - 1).toNat).sum
  let days2 := days1 + (mday - 1)
  let local_secs := days2 * 86400 + hour * 3600 + minute * 60 + sec
  local_secs + _get_local_utc_offset_seconds tzi tuple.tm_isdst

/-- Model of the module-level weekday-name table. -/
def _weekdays : List String := ["Mon", "Tue", "Wed", "Thu", "Fri", "Sat", "Sun"]

/-- Model of the module-level full weekday-name table. -/
def _weekdays_full : List String :=
  ["Monday", "Tuesday", "Wednesday", "Thursday", "Friday", "Saturday", "Sunday"]

/-- Model of the module-level month-name table. -/
def _months : List String :=
  ["Jan", "Feb", "Mar", "Apr", "May", "Jun", "Jul", "Aug", "Sep", "Oct", "Nov", "Dec"]

/-- Model of the module-level full month-name table. -/
def _months_full : List String :=
  ["January", "February", "March", "April", "May", "June", "July", "August",
   "September", "October", "November", "December"]

/-- Model of Python's `str.zfill`: left-pad with zeros to the given total
width, keeping a leading sign in front of the padding. -/
def zfill (s : String) (width : Nat) : String :=
  if width ≤ s.length then s
  else
    let signed : Bool := match s.data with
      | c :: _ => c == '-' || c == '+'
      | [] => false
    let sign : List Char := if signed then s.data.take 1 else []
    let digits : List Char := if signed then s.data.drop 1 else s.data
    ⟨sign ++ List.replicate (width - s.length) '0' ++ digits⟩

/-- Model of the `_zero` helper (`str(n).zfill(2)` at every call site). -/
def _zero (n : Int) : String := zfill (toString n) 2

/-- Model of the `_yday` helper (`str(tm.tm_yday).zfill(3)`). -/
def _yday (tm : struct_time) : String := zfill (toString tm.tm_yday) 3

/-- Model of the `_strtime_handlers` dict: `.get` on a code character.  The
name-table lookups use `getD`, which agrees with Python's list indexing on
the in-range weekday/month values `struct_time` normally carries. -/
def _strtime_handlers (code : Char) : Option (struct_time → String) :=
  if code = 'Y' then some (fun tm => toString tm.tm_year)
  else if code = 'y' then some (fun tm => _zero (tm.tm_year % 100))
  else if code = 'm' then some (fun tm => _zero tm.tm_mon)
  else if code = 'd' then some (fun tm => _zero tm.tm_mday)
  else if code = 'H' then some (fun tm => _zero tm.tm_hour)
  else if code = 'M' then some (fun tm => _zero tm.tm_min)
  else if code = 'S' then some (fun tm => _zero tm.tm_sec)
  else if code = 'a' then some (fun tm => _weekdays.getD tm.tm_wday.toNat (""))
  else if code = 'A' then some (fun tm => _weekdays_full.getD tm.tm_wday.toNat (""))
  else if code = 'b' then some (fun tm => _months.getD (tm.tm_mon - 1).toNat (""))
  else if code = 'B' then some (fun tm => _months_full.getD (tm.tm_mon - 1).toNat (""))
  else if code = 'w' then some (fun tm => toString tm.tm_wday)
  else if code = 'j' then some (fun tm => _yday tm)
  else if code = '%' then some (fun _ => "%")
  else none

/-- Model of the `while i < L` scan of `strftime` over the format string: a
`%` followed by a code consumes two characters (handler result if the code is
in the table, literal `%<code>` otherwise); any other character, including a
trailing lone `%`, is copied through. -/
def strftimeList (tuple : struct_time) : List Char → String
  | [] => ""
  | '%' :: c :: rest =>
      (match _strtime_handlers c with
       | some fn => fn tuple
       | none => "%" ++ String.singleton c) ++ strftimeList tuple rest
  | c :: rest => String.singleton c ++ strftimeList tuple rest

/-- Model of `strftime(format, tuple)` with an explicitly supplied tuple. -/
def strftime (format : String) (tuple : struct_time) : String :=
  strftimeList tuple format.data

/-- Error taxonomy of the module: `ValueError` for invalid arguments,
`OSError` for failed OS calls. -/
inductive PyError where
  | valueError : String → PyError
  | osError : String → PyError
deriving DecidableEq

/-- The SimpleNamespace returned by `get_clock_info`. -/
structure ClockEntry where
  resolution : ℚ
  adjustable : Bool
  implementation : String
  monotonic : Bool
deriving DecidableEq

/-- Model of Python's `str.lower()`: lowercase the string character by
character. -/
def pyLower (s : String) : String := ⟨s.data.map Char.toLower⟩

/-- Model of `get_clock_info`; the performance-counter frequency measured
once at startup is passed explicitly. -/
def get_clock_info (frequency : ℚ) (name0 : String) : Except PyError ClockEntry :=
  let name := pyLower name0
  if name = "monotonic" ∨ name = "perf_counter" then
    .ok ⟨1 / frequency, false, "QueryPerformanceCounter", true⟩
  else if name = "process_time" then
    .ok ⟨1 / 10 ^ 7, false, "GetProcessTimes", true⟩
  else if name = "thread_time" then
    .ok ⟨1 / 10 ^ 7, false, "GetThreadTimes", true⟩
  else if name = "time" then
    .ok ⟨1 / 10 ^ 7, true, "GetSystemTimeAsFileTime", false⟩
  else .error (.valueError ("unknown clock: " ++ name))

/-- Model of Python's `int()` applied to a real value: truncation toward
zero. -/
def pyInt (q : ℚ) : Int := if 0 ≤ q then ⌊q⌋ else ⌈q⌉

/-- Model of `_filetime_to_seconds`: combine the two 32-bit halves into the
100ns tick count and divide. -/
def _filetime_to_seconds (high low : Int) : ℚ :=
  ((high * 4294967296 + low : Int) : ℚ) / 10000000

/-- Model of `monotonic()`: the sampled QueryPerformanceCounter value divided
by the startup frequency; both are passed explicitly. -/
def monotonic (counter frequency : Int) : ℚ := (counter : ℚ) / (frequency : ℚ)

/-- Model of `monotonic_ns()`. -/
def monotonic_ns (counter frequency : Int) : Int :=
  pyInt (monotonic counter frequency * 1000000000)

/-- Model of the `perf_counter = monotonic` alias. -/
def perf_counter : Int → Int → ℚ := monotonic

/-- Model of the `perf_counter_ns = monotonic_ns` alias. -/
def perf_counter_ns : Int → Int → Int := monotonic_ns

/-- Model of `_get_user_cpu_time`: kernel plus user FILETIME, as seconds.
The four sampled 32-bit halves are passed explicitly. -/
def _get_user_cpu_time (kHigh kLow uHigh uLow : Int) : ℚ :=
  _filetime_to_seconds kHigh kLow + _filetime_to_seconds uHigh uLow

/-- Model of `process_time()`. -/
def process_time (kHigh kLow uHigh uLow : Int) : ℚ :=
  _get_user_cpu_time kHigh kLow uHigh uLow

/-- Model of `process_time_ns()`. -/
def process_time_ns (kHigh kLow uHigh uLow : Int) : Int :=
  pyInt (process_time kHigh kLow uHigh uLow * 1000000000)

/-- Model of `thread_time()`. -/
def thread_time (kHigh kLow uHigh uLow : Int) : ℚ :=
  _get_user_cpu_time kHigh kLow uHigh uLow

/-- Model of `thread_time_ns()`. -/
def thread_time_ns (kHigh kLow uHigh uLow : Int) : Int :=
  pyInt (thread_time kHigh kLow uHigh uLow * 1000000000)

/-- Model of the `_EPOCH_DIFF` constant. -/
def _EPOCH_DIFF : Int := 11644473600

/-- Model of `time()`: the sampled system FILETIME as seconds, shifted to the
Unix epoch. -/
def time (high low : Int) : ℚ := _filetime_to_seconds high low - (_EPOCH_DIFF : ℚ)

/-- Model of `time_ns()`. -/
def time_ns (high low : Int) : Int := pyInt (time high low * 1000000000)

/-- Number of Gregorian leap years in `1..n`; proof-side helper for the
weekday correctness argument. -/
def A (n : Int) : Int := n / 4 - n / 100 + n / 400

/-- Length of month `m` of the given year, written independently of the
module's tables, for the day-of-year cross-check. -/
def month_len_spec (year m : Int) : Int :=
  if m = 2 then (if _is_leap year then 29 else 28)
  else if m = 4 ∨ m = 6 ∨ m = 9 ∨ m = 11 then 30
  else 31

/-- Day-of-year recomputed independently from year/month/day: the day plus
the lengths of all preceding months. -/
def yday_spec (year month day : Int) : Int :=
  day + ((List.range (month - 1).toNat).map (fun i : Nat => month_len_spec year (1 + (i : Int)))).sum

theorem year_days_bounds (y : Int) : 365 ≤ year_days y ∧ year_days y ≤ 366 := by
  unfold year_days; split <;> omega

theorem _is_leap_iff (k : Int) :
    _is_leap k = true ↔ (k % 4 = 0 ∧ k % 100 ≠ 0) ∨ k % 400 = 0 := by
  unfold _is_leap
  simp [Bool.or_eq_true, Bool.and_eq_true, beq_iff_eq, bne_iff_ne]

theorem A_sub (k : Int) : A k - A (k - 1) = if _is_leap k then 1 else 0 := by
  unfold A
  by_cases hl : _is_leap k
  · rw [if_pos hl]
    rw [_is_leap_iff] at hl
    rcases hl with ⟨h4, h100⟩ | h400 <;> omega
  · rw [if_neg hl]
    rw [_is_leap_iff] at hl
    push_neg at hl
    obtain ⟨h1, h2⟩ := hl
    by_cases h4 : k % 4 = 0
    · have h100 := h1 h4
      omega
    · omega

theorem days_in_years_succ_left (a b : Int) (h : a < b) :
    days_in_years a b = year_days a + days_in_years (a + 1) b := by
  have hn : (b - a).toNat = (b - (a + 1)).toNat + 1 := by omega
  unfold days_in_years
  rw [hn, List.range_succ_eq_map, List.map_cons, List.sum_cons, List.map_map]
  have hfun : ((fun i : Nat => year_days (a + (i : Int))) ∘ Nat.succ)
      = fun i : Nat => year_days ((a + 1) + (i : Int)) := by
    funext i
    simp only [Function.comp]
    congr 1
    push_cast
    ring
  rw [hfun]
  norm_num

theorem days_in_years_succ_right (a b : Int) (h : a ≤ b) :
    days_in_years a (b + 1) = days_in_years a b + year_days b := by
  have hn : (b + 1 - a).toNat = (b - a).toNat + 1 := by omega
  unfold days_in_years
  rw [hn, List.range_succ, List.map_append, List.sum_append]
  have hb : a + (((b - a).toNat : Nat) : Int) = b := by omega
  simp only [List.map_cons, List.map_nil, List.sum_cons, List.sum_nil, add_zero]
  rw [hb]

theorem yearLoop_spec : ∀ (n : Nat) (days year : Int), days.toNat = n → 0 ≤ days →
    year ≤ (yearLoop days year).1 ∧
    0 ≤ (yearLoop days year).2 ∧
    (yearLoop days year).2 < year_days (yearLoop days year).1 ∧
    days_in_years year (yearLoop days year).1 + (yearLoop days year).2 = days := by
  intro n
  induction n using Nat.strong_induction_on with
  | _ n ih =>
    intro days year hn h0
    have hyd := year_days_bounds year
    by_cases hge : days ≥ year_days year
    · have heq : yearLoop days year = yearLoop (days - year_days year) (year + 1) := by
        rw [yearLoop, if_pos hge]
      rw [heq]
      have hrec := ih (days - year_days year).toNat (by omega)
        (days - year_days year) (year + 1) rfl (by omega)
      obtain ⟨hA, hB, hC, hD⟩ := hrec
      refine ⟨by omega, hB, hC, ?_⟩
      rw [days_in_years_succ_left year _ (by omega)]
      omega
    · have heq : yearLoop days year = (year, days) := by
        rw [yearLoop, if_neg hge]
      rw [heq]
      refine ⟨le_refl year, h0, ?_, ?_⟩
      · show days < year_days year
        omega
      · show days_in_years year year + days = days
        have hz : days_in_years year year = 0 := by
          unfold days_in_years
          simp
        omega

theorem monthLoop_spec : ∀ (l : List Int) (days m0 : Int), 0 ≤ days → days < l.sum →
    (∀ x ∈ l, 0 < x) →
    m0 ≤ (monthLoop days m0 l).2 ∧
    ((monthLoop days m0 l).2 - m0).toNat < l.length ∧
    0 ≤ (monthLoop days m0 l).1 ∧
    (l.take ((monthLoop days m0 l).2 - m0).toNat).sum + (monthLoop days m0 l).1 = days ∧
    (monthLoop days m0 l).1 + 1 ≤ l.getD ((monthLoop days m0 l).2 - m0).toNat 0 := by
  intro l
  induction l with
  | nil =>
    intro days m0 h0 h1 _
    simp only [List.sum_nil] at h1
    omega
  | cons mlen rest ih =>
    intro days m0 h0 h1 hpos
    have hmlen : 0 < mlen := hpos mlen (by simp)
    by_cases hgt : days + 1 > mlen
    · have heq : monthLoop days m0 (mlen :: rest) = monthLoop (days - mlen) (m0 + 1) rest := by
        rw [monthLoop, if_pos hgt]
      rw [heq]
      have hrest : days - mlen < rest.sum := by
        simp only [List.sum_cons] at h1
        omega
      have hrec := ih (days - mlen) (m0 + 1) (by omega) hrest
        (fun x hx => hpos x (List.mem_cons_of_mem _ hx))
      obtain ⟨hA, hB, hC, hD, hE⟩ := hrec
      have hidx : ((monthLoop (days - mlen) (m0 + 1) rest).2 - m0).toNat
          = ((monthLoop (days - mlen) (m0 + 1) rest).2 - (m0 + 1)).toNat + 1 := by omega
      refine ⟨by omega, ?_, hC, ?_, ?_⟩
      · rw [hidx]
        simpa using hB
      · rw [hidx, List.take_succ_cons, List.sum_cons]
        omega
      · rw [hidx, List.getD_cons_succ]
        exact hE
    · have heq : monthLoop days m0 (mlen :: rest) = (days, m0) := by
        rw [monthLoop, if_neg hgt]
      rw [heq]
      refine ⟨le_refl m0, by simp, h0, by simp, by simp; omega⟩

theorem days_in_years_closed : ∀ y : Int, 1970 ≤ y →
    days_in_years 1970 y = 365 * (y - 1970) + (A (y - 1) - A 1969) := by
  refine Int.le_induction ?_ ?_
  · have hz : days_in_years 1970 1970 = 0 := by
      unfold days_in_years
      simp
    have ha : A (1970 - 1) = A 1969 := by norm_num
    omega
  · intro n hn ih
    rw [days_in_years_succ_right 1970 n (by omega), ih]
    have h1 := A_sub n
    have h3 : A (n + 1 - 1) = A n := by norm_num
    rw [h3]
    by_cases hl : _is_leap n
    · rw [if_pos hl] at h1
      have h2 : year_days n = 366 := by rw [year_days, if_pos hl]
      omega
    · rw [if_neg hl] at h1
      have h2 : year_days n = 365 := by rw [year_days, if_neg hl]
      omega

theorem days_in_years_mono (a : Int) (h0 : 1970 ≤ a) : ∀ b : Int, a ≤ b →
    days_in_years 1970 a ≤ days_in_years 1970 b := by
  refine Int.le_induction ?_ ?_
  · exact le_refl _
  · intro n hn ih
    have h70 : (1970 : Int) ≤ n := le_trans h0 hn
    rw [days_in_years_succ_right 1970 n h70]
    have := year_days_bounds n
    omega

theorem year_rep_unique {Y1 Y2 r1 r2 : Int} (h1 : 1970 ≤ Y1) (h2 : 1970 ≤ Y2)
    (hr1 : 0 ≤ r1) (hs1 : r1 < year_days Y1) (hr2 : 0 ≤ r2) (hs2 : r2 < year_days Y2)
    (he : days_in_years 1970 Y1 + r1 = days_in_years 1970 Y2 + r2) :
    Y1 = Y2 ∧ r1 = r2 := by
  rcases lt_trichotomy Y1 Y2 with hlt | heq | hgt
  · exfalso
    have hb := days_in_years_succ_right 1970 Y1 (by omega)
    have hm := days_in_years_mono (Y1 + 1) (by omega) Y2 (by omega)
    omega
  · exact ⟨heq, by rw [heq] at he; omega⟩
  · exfalso
    have hb := days_in_years_succ_right 1970 Y2 (by omega)
    have hm := days_in_years_mono (Y2 + 1) (by omega) Y1 (by omega)
    omega

theorem patched_sum (y : Int) : (_patched_mdays y).sum = year_days y := by
  unfold _patched_mdays year_days
  split <;> decide

theorem patched_pos (y : Int) : ∀ x ∈ _patched_mdays y, 0 < x := by
  unfold _patched_mdays
  split <;> decide

theorem patched_length (y : Int) : (_patched_mdays y).length = 12 := by
  unfold _patched_mdays
  split <;> rfl

theorem localtime_main (s : Int) (hs : 0 ≤ s) :
    1970 ≤ (localtime s).tm_year ∧
    1 ≤ (localtime s).tm_mon ∧ (localtime s).tm_mon ≤ 12 ∧
    1 ≤ (localtime s).tm_mday ∧
    (localtime s).tm_mday ≤
      (_patched_mdays (localtime s).tm_year).getD ((localtime s).tm_mon - 1).toNat 0 ∧
    (localtime s).tm_hour = s / 60 / 60 % 24 ∧
    (localtime s).tm_min = s / 60 % 60 ∧
    (localtime s).tm_sec = s % 60 ∧
    days_in_years 1970 (localtime s).tm_year
      + ((_patched_mdays (localtime s).tm_year).take ((localtime s).tm_mon - 1).toNat).sum
      + ((localtime s).tm_mday - 1) = s / 60 / 60 / 24 ∧
    (localtime s).tm_wday
      = _calc_weekday (localtime s).tm_year (localtime s).tm_mon (localtime s).tm_mday ∧
    (localtime s).tm_yday
      = _calc_yday (localtime s).tm_year (localtime s).tm_mon (localtime s).tm_mday ∧
    (localtime s).tm_isdst = 0 := by
  have hD : 0 ≤ s / 60 / 60 / 24 := by omega
  have hY := yearLoop_spec (s / 60 / 60 / 24).toNat (s / 60 / 60 / 24) 1970 rfl hD
  obtain ⟨hY1, hY2, hY3, hY4⟩ := hY
  have hsum := patched_sum (yearLoop (s / 60 / 60 / 24) 1970).1
  have hM := monthLoop_spec (_patched_mdays (yearLoop (s / 60 / 60 / 24) 1970).1)
    (yearLoop (s / 60 / 60 / 24) 1970).2 1 hY2 (by omega) (patched_pos _)
  obtain ⟨hM1, hM2, hM3, hM4, hM5⟩ := hM
  rw [patched_length] at hM2
  have hyear : (localtime s).tm_year = (yearLoop (s / 60 / 60 / 24) 1970).1 := rfl
  have hmon : (localtime s).tm_mon = (monthLoop (yearLoop (s / 60 / 60 / 24) 1970).2 1
      (_patched_mdays (yearLoop (s / 60 / 60 / 24) 1970).1)).2 := rfl
  have hmday : (localtime s).tm_mday = (monthLoop (yearLoop (s / 60 / 60 / 24) 1970).2 1
      (_patched_mdays (yearLoop (s / 60 / 60 / 24) 1970).1)).1 + 1 := rfl
  rw [hyear, hmon, hmday]
  refine ⟨hY1, hM1, by omega, by omega, by omega, rfl, rfl, rfl, by omega, rfl, rfl, rfl⟩

theorem sak_core (Y d tval cum lv : Int)
    (hA2 : A Y - A (Y - 1) = lv)
    (hkey : (tval + 1 + lv - cum) % 7 = 0) :
    ((Y + Y / 4 - Y / 100 + Y / 400 + tval + d) % 7 - 1) % 7
      = (365 * (Y - 1970) + (A (Y - 1) - 477) + cum + (d - 1) + 3) % 7 := by
  simp only [A] at hA2 ⊢
  omega

theorem sak_core_lt3 (Y d tval cum : Int)
    (hkey : (tval - cum) % 7 = 0) :
    ((Y - 1 + (Y - 1) / 4 - (Y - 1) / 100 + (Y - 1) / 400 + tval + d) % 7 - 1) % 7
      = (365 * (Y - 1970) + (A (Y - 1) - 477) + cum + (d - 1) + 3) % 7 := by
  simp only [A]
  omega

theorem weekday_formula (Y M d : Int) (hM1 : 1 ≤ M) (hM2 : M ≤ 12) :
    _calc_weekday Y M d
      = (365 * (Y - 1970) + (A (Y - 1) - A 1969)
         + ((_patched_mdays Y).take (M - 1).toNat).sum + (d - 1) + 3) % 7 := by
  have hA := A_sub Y
  have h1969 : A 1969 = 477 := by decide
  rw [h1969]
  interval_cases M
  · have ht : (([0,3,2,5,0,3,5,1,4,6,2,4] : List Int)).getD ((1:Int) - 1).toNat 0 = 0 := by decide
    have hif : (if (1:Int) < 3 then (1:Int) else 0) = 1 := by norm_num
    have hcum : ((_patched_mdays Y).take ((1:Int) - 1).toNat).sum = 0 := by
      rw [_patched_mdays]; split <;> decide
    rw [hcum]
    simp only [_calc_weekday]
    rw [ht, hif]
    exact sak_core_lt3 Y d 0 0 (by decide)
  · have ht : (([0,3,2,5,0,3,5,1,4,6,2,4] : List Int)).getD ((2:Int) - 1).toNat 0 = 3 := by decide
    have hif : (if (2:Int) < 3 then (1:Int) else 0) = 1 := by norm_num
    have hcum : ((_patched_mdays Y).take ((2:Int) - 1).toNat).sum = 31 := by
      rw [_patched_mdays]; split <;> decide
    rw [hcum]
    simp only [_calc_weekday]
    rw [ht, hif]
    exact sak_core_lt3 Y d 3 31 (by decide)
  · have ht : (([0,3,2,5,0,3,5,1,4,6,2,4] : List Int)).getD ((3:Int) - 1).toNat 0 = 2 := by decide
    have hif : (if (3:Int) < 3 then (1:Int) else 0) = 0 := by norm_num
    by_cases hl : _is_leap Y
    · rw [if_pos hl] at hA
      have hcum : ((_patched_mdays Y).take ((3:Int) - 1).toNat).sum = 60 := by
        rw [_patched_mdays, if_pos hl]; decide
      rw [hcum]
      simp only [_calc_weekday]
      rw [ht, hif]
      simp only [sub_zero]
      exact sak_core Y d 2 60 1 hA (by decide)
    · rw [if_neg hl] at hA
      have hcum : ((_patched_mdays Y).take ((3:Int) - 1).toNat).sum = 59 := by
        rw [_patched_mdays, if_neg hl]; decide
      rw [hcum]
      simp only [_calc_weekday]
      rw [ht, hif]
      simp only [sub_zero]
      exact sak_core Y d 2 59 0 hA (by decide)
  · have ht : (([0,3,2,5,0,3,5,1,4,6,2,4] : List Int)).getD ((4:Int) - 1).toNat 0 = 5 := by decide
    have hif : (if (4:Int) < 3 then (1:Int) else 0) = 0 := by norm_num
    by_cases hl : _is_leap Y
    · rw [if_pos hl] at hA
      have hcum : ((_patched_mdays Y).take ((4:Int) - 1).toNat).sum = 91 := by
        rw [_patched_mdays, if_pos hl]; decide
      rw [hcum]
      simp only [_calc_weekday]
      rw [ht, hif]
      simp only [sub_zero]
      exact sak_core Y d 5 91 1 hA (by decide)
    · rw [if_neg hl] at hA
      have hcum : ((_patched_mdays Y).take ((4:Int) - 1).toNat).sum = 90 := by
        rw [_patched_mdays, if_neg hl]; decide
      rw [hcum]
      simp only [_calc_weekday]
      rw [ht, hif]
      simp only [sub_zero]
      exact sak_core Y d 5 90 0 hA (by decide)
  · have ht : (([0,3,2,5,0,3,5,1,4,6,2,4] : List Int)).getD ((5:Int) - 1).toNat 0 = 0 := by decide
    have hif : (if (5:Int) < 3 then (1:Int) else 0) = 0 := by norm_num
    by_cases hl : _is_leap Y
    · rw [if_pos hl] at hA
      have hcum : ((_patched_mdays Y).take ((5:Int) - 1).toNat).sum = 121 := by
        rw [_patched_mdays, if_pos hl]; decide
      rw [hcum]
      simp only [_calc_weekday]
      rw [ht, hif]
      simp only [sub_zero]
      exact sak_core Y d 0 121 1 hA (by decide)
    · rw [if_neg hl] at hA
      have hcum : ((_patched_mdays Y).take ((5:Int) - 1).toNat).sum = 120 := by
        rw [_patched_mdays, if_neg hl]; decide
      rw [hcum]
      simp only [_calc_weekday]
      rw [ht, hif]
      simp only [sub_zero]
      exact sak_core Y d 0 120 0 hA (by decide)
  · have ht : (([0,3,2,5,0,3,5,1,4,6,2,4] : List Int)).getD ((6:Int) - 1).toNat 0 = 3 := by decide
    have hif : (if (6:Int) < 3 then (1:Int) else 0) = 0 := by norm_num
    by_cases hl : _is_leap Y
    · rw [if_pos hl] at hA
      have hcum : ((_patched_mdays Y).take ((6:Int) - 1).toNat).sum = 152 := by
        rw [_patched_mdays, if_pos hl]; decide
      rw [hcum]
      simp only [_calc_weekday]
      rw [ht, hif]
      simp only [sub_zero]
      exact sak_core Y d 3 152 1 hA (by decide)
    · rw [if_neg hl] at hA
      have hcum : ((_patched_mdays Y).take ((6:Int) - 1).toNat).sum = 151 := by
        rw [_patched_mdays, if_neg hl]; decide
      rw [hcum]
      simp only [_calc_weekday]
      rw [ht, hif]
      simp only [sub_zero]
      exact sak_core Y d 3 151 0 hA (by decide)
  · have ht : (([0,3,2,5,0,3,5,1,4,6,2,4] : List Int)).getD ((7:Int) - 1).toNat 0 = 5 := by decide
    have hif : (if (7:Int) < 3 then (1:Int) else 0) = 0 := by norm_num
    by_cases hl : _is_leap Y
    · rw [if_pos hl] at hA
      have hcum : ((_patched_mdays Y).take ((7:Int) - 1).toNat).sum = 182 := by
        rw [_patched_mdays, if_pos hl]; decide
      rw [hcum]
      simp only [_calc_weekday]
      rw [ht, hif]
      simp only [sub_zero]
      exact sak_core Y d 5 182 1 hA (by decide)
    · rw [if_neg hl] at hA
      have hcum : ((_patched_mdays Y).take ((7:Int) - 1).toNat).sum = 181 := by
        rw [_patched_mdays, if_neg hl]; decide
      rw [hcum]
      simp only [_calc_weekday]
      rw [ht, hif]
      simp only [sub_zero]
      exact sak_core Y d 5 181 0 hA (by decide)
  · have ht : (([0,3,2,5,0,3,5,1,4,6,2,4] : List Int)).getD ((8:Int) - 1).toNat 0 = 1 := by decide
    have hif : (if (8:Int) < 3 then (1:Int) else 0) = 0 := by norm_num
    by_cases hl : _is_leap Y
    · rw [if_pos hl] at hA
      have hcum : ((_patched_mdays Y).take ((8:Int) - 1).toNat).sum = 213 := by
        rw [_patched_mdays, if_pos hl]; decide
      rw [hcum]
      simp only [_calc_weekday]
      rw [ht, hif]
      simp only [sub_zero]
      exact sak_core Y d 1 213 1 hA (by decide)
    · rw [if_neg hl] at hA
      have hcum : ((_patched_mdays Y).take ((8:Int) - 1).toNat).sum = 212 := by
        rw [_patched_mdays, if_neg hl]; decide
      rw [hcum]
      simp only [_calc_weekday]
      rw [ht, hif]
      simp only [sub_zero]
      exact sak_core Y d 1 212 0 hA (by decide)
  · have ht : (([0,3,2,5,0,3,5,1,4,6,2,4] : List Int)).getD ((9:Int) - 1).toNat 0 = 4 := by decide
    have hif : (if (9:Int) < 3 then (1:Int) else 0) = 0 := by norm_num
    by_cases hl : _is_leap Y
    · rw [if_pos hl] at hA
      have hcum : ((_patched_mdays Y).take ((9:Int) - 1).toNat).sum = 244 := by
        rw [_patched_mdays, if_pos hl]; decide
      rw [hcum]
      simp only [_calc_weekday]
      rw [ht, hif]
      simp only [sub_zero]
      exact sak_core Y d 4 244 1 hA (by decide)
    · rw [if_neg hl] at hA
      have hcum : ((_patched_mdays Y).take ((9:Int) - 1).toNat).sum = 243 := by
        rw [_patched_mdays, if_neg hl]; decide
      rw [hcum]
      simp only [_calc_weekday]
      rw [ht, hif]
      simp only [sub_zero]
      exact sak_core Y d 4 243 0 hA (by decide)
  · have ht : (([0,3,2,5,0,3,5,1,4,6,2,4] : List Int)).getD ((10:Int) - 1).toNat 0 = 6 := by decide
    have hif : (if (10:Int) < 3 then (1:Int) else 0) = 0 := by norm_num
    by_cases hl : _is_leap Y
    · rw [if_pos hl] at hA
      have hcum : ((_patched_mdays Y).take ((10:Int) - 1).toNat).sum = 274 := by
        rw [_patched_mdays, if_pos hl]; decide
      rw [hcum]
      simp only [_calc_weekday]
      rw [ht, hif]
      simp only [sub_zero]
      exact sak_core Y d 6 274 1 hA (by decide)
    · rw [if_neg hl] at hA
      have hcum : ((_patched_mdays Y).take ((10:Int) - 1).toNat).sum = 273 := by
        rw [_patched_mdays, if_neg hl]; decide
      rw [hcum]
      simp only [_calc_weekday]
      rw [ht, hif]
      simp only [sub_zero]
      exact sak_core Y d 6 273 0 hA (by decide)
  · have ht : (([0,3,2,5,0,3,5,1,4,6,2,4] : List Int)).getD ((11:Int) - 1).toNat 0 = 2 := by decide
    have hif : (if (11:Int) < 3 then (1:Int) else 0) = 0 := by norm_num
    by_cases hl : _is_leap Y
    · rw [if_pos hl] at hA
      have hcum : ((_patched_mdays Y).take ((11:Int) - 1).toNat).sum = 305 := by
        rw [_patched_mdays, if_pos hl]; decide
      rw [hcum]
      simp only [_calc_weekday]
      rw [ht, hif]
      simp only [sub_zero]
      exact sak_core Y d 2 305 1 hA (by decide)
    · rw [if_neg hl] at hA
      have hcum : ((_patched_mdays Y).take ((11:Int) - 1).toNat).sum = 304 := by
        rw [_patched_mdays, if_neg hl]; decide
      rw [hcum]
      simp only [_calc_weekday]
      rw [ht, hif]
      simp only [sub_zero]
      exact sak_core Y d 2 304 0 hA (by decide)
  · have ht : (([0,3,2,5,0,3,5,1,4,6,2,4] : List Int)).getD ((12:Int) - 1).toNat 0 = 4 := by decide
    have hif : (if (12:Int) < 3 then (1:Int) else 0) = 0 := by norm_num
    by_cases hl : _is_leap Y
    · rw [if_pos hl] at hA
      have hcum : ((_patched_mdays Y).take ((12:Int) - 1).toNat).sum = 335 := by
        rw [_patched_mdays, if_pos hl]; decide
      rw [hcum]
      simp only [_calc_weekday]
      rw [ht, hif]
      simp only [sub_zero]
      exact sak_core Y d 4 335 1 hA (by decide)
    · rw [if_neg hl] at hA
      have hcum : ((_patched_mdays Y).take ((12:Int) - 1).toNat).sum = 334 := by
        rw [_patched_mdays, if_neg hl]; decide
      rw [hcum]
      simp only [_calc_weekday]
      rw [ht, hif]
      simp only [sub_zero]
      exact sak_core Y d 4 334 0 hA (by decide)

theorem _calc_yday_eq_spec (year M d : Int) (hM1 : 1 ≤ M) (hM2 : M ≤ 12) :
    _calc_yday year M d = yday_spec year M d := by
  unfold _calc_yday yday_spec
  interval_cases M
  · have hr : List.range ((1:Int) - 1).toNat = [] := by decide
    rw [hr]
    by_cases hl : _is_leap year
    · have hcum : ((_patched_mdays year).take ((1:Int) - 1).toNat).sum = 0 := by
        rw [_patched_mdays, if_pos hl]; decide
      rw [hcum]
      norm_num [month_len_spec, hl]
    · have hcum : ((_patched_mdays year).take ((1:Int) - 1).toNat).sum = 0 := by
        rw [_patched_mdays, if_neg hl]; decide
      rw [hcum]
      norm_num [month_len_spec, hl]
  · have hr : List.range ((2:Int) - 1).toNat = [0] := by decide
    rw [hr]
    by_cases hl : _is_leap year
    · have hcum : ((_patched_mdays year).take ((2:Int) - 1).toNat).sum = 31 := by
        rw [_patched_mdays, if_pos hl]; decide
      rw [hcum]
      norm_num [month_len_spec, hl]
    · have hcum : ((_patched_mdays year).take ((2:Int) - 1).toNat).sum = 31 := by
        rw [_patched_mdays, if_neg hl]; decide
      rw [hcum]
      norm_num [month_len_spec, hl]
  · have hr : List.range ((3:Int) - 1).toNat = [0, 1] := by decide
    rw [hr]
    by_cases hl : _is_leap year
    · have hcum : ((_patched_mdays year).take ((3:Int) - 1).toNat).sum = 60 := by
        rw [_patched_mdays, if_pos hl]; decide
      rw [hcum]
      norm_num [month_len_spec, hl]
    · have hcum : ((_patched_mdays year).take ((3:Int) - 1).toNat).sum = 59 := by
        rw [_patched_mdays, if_neg hl]; decide
      rw [hcum]
      norm_num [month_len_spec, hl]
  · have hr : List.range ((4:Int) - 1).toNat = [0, 1, 2] := by decide
    rw [hr]
    by_cases hl : _is_leap year
    · have hcum : ((_patched_mdays year).take ((4:Int) - 1).toNat).sum = 91 := by
        rw [_patched_mdays, if_pos hl]; decide
      rw [hcum]
      norm_num [month_len_spec, hl]
    · have hcum : ((_patched_mdays year).take ((4:Int) - 1).toNat).sum = 90 := by
        rw [_patched_mdays, if_neg hl]; decide
      rw [hcum]
      norm_num [month_len_spec, hl]
  · have hr : List.range ((5:Int) - 1).toNat = [0, 1, 2, 3] := by decide
    rw [hr]
    by_cases hl : _is_leap year
    · have hcum : ((_patched_mdays year).take ((5:Int) - 1).toNat).sum = 121 := by
        rw [_patched_mdays, if_pos hl]; decide
      rw [hcum]
      norm_num [month_len_spec, hl]
    · have hcum : ((_patched_mdays year).take ((5:Int) - 1).toNat).sum = 120 := by
        rw [_patched_mdays, if_neg hl]; decide
      rw [hcum]
      norm_num [month_len_spec, hl]
  · have hr : List.range ((6:Int) - 1).toNat = [0, 1, 2, 3, 4] := by decide
    rw [hr]
    by_cases hl : _is_leap year
    · have hcum : ((_patched_mdays year).take ((6:Int) - 1).toNat).sum = 152 := by
        rw [_patched_mdays, if_pos hl]; decide
      rw [hcum]
      norm_num [month_len_spec, hl]
    · have hcum : ((_patched_mdays year).take ((6:Int) - 1).toNat).sum = 151 := by
        rw [_patched_mdays, if_neg hl]; decide
      rw [hcum]
      norm_num [month_len_spec, hl]
  · have hr : List.range ((7:Int) - 1).toNat = [0, 1, 2, 3, 4, 5] := by decide
    rw [hr]
    by_cases hl : _is_leap year
    · have hcum : ((_patched_mdays year).take ((7:Int) - 1).toNat).sum = 182 := by
        rw [_patched_mdays, if_pos hl]; decide
      rw [hcum]
      norm_num [month_len_spec, hl]
    · have hcum : ((_patched_mdays year).take ((7:Int) - 1).toNat).sum = 181 := by
        rw [_patched_mdays, if_neg hl]; decide
      rw [hcum]
      norm_num [month_len_spec, hl]
  · have hr : List.range ((8:Int) - 1).toNat = [0, 1, 2, 3, 4, 5, 6] := by decide
    rw [hr]
    by_cases hl : _is_leap year
    · have hcum : ((_patched_mdays year).take ((8:Int) - 1).toNat).sum = 213 := by
        rw [_patched_mdays, if_pos hl]; decide
      rw [hcum]
      norm_num [month_len_spec, hl]
    · have hcum : ((_patched_mdays year).take ((8:Int) - 1).toNat).sum = 212 := by
        rw [_patched_mdays, if_neg hl]; decide
      rw [hcum]
      norm_num [month_len_spec, hl]
  · have hr : List.range ((9:Int) - 1).toNat = [0, 1, 2, 3, 4, 5, 6, 7] := by decide
    rw [hr]
    by_cases hl : _is_leap year
    · have hcum : ((_patched_mdays year).take ((9:Int) - 1).toNat).sum = 244 := by
        rw [_patched_mdays, if_pos hl]; decide
      rw [hcum]
      norm_num [month_len_spec, hl]
    · have hcum : ((_patched_mdays year).take ((9:Int) - 1).toNat).sum = 243 := by
        rw [_patched_mdays, if_neg hl]; decide
      rw [hcum]
      norm_num [month_len_spec, hl]
  · have hr : List.range ((10:Int) - 1).toNat = [0, 1, 2, 3, 4, 5, 6, 7, 8] := by decide
    rw [hr]
    by_cases hl : _is_leap year
    · have hcum : ((_patched_mdays year).take ((10:Int) - 1).toNat).sum = 274 := by
        rw [_patched_mdays, if_pos hl]; decide
      rw [hcum]
      norm_num [month_len_spec, hl]
    · have hcum : ((_patched_mdays year).take ((10:Int) - 1).toNat).sum = 273 := by
        rw [_patched_mdays, if_neg hl]; decide
      rw [hcum]
      norm_num [month_len_spec, hl]
  · have hr : List.range ((11:Int) - 1).toNat = [0, 1, 2, 3, 4, 5, 6, 7, 8, 9] := by decide
    rw [hr]
    by_cases hl : _is_leap year
    · have hcum : ((_patched_mdays year).take ((11:Int) - 1).toNat).sum = 305 := by
        rw [_patched_mdays, if_pos hl]; decide
      rw [hcum]
      norm_num [month_len_spec, hl]
    · have hcum : ((_patched_mdays year).take ((11:Int) - 1).toNat).sum = 304 := by
        rw [_patched_mdays, if_neg hl]; decide
      rw [hcum]
      norm_num [month_len_spec, hl]
  · have hr : List.range ((12:Int) - 1).toNat = [0, 1, 2, 3, 4, 5, 6, 7, 8, 9, 10] := by decide
    rw [hr]
    by_cases hl : _is_leap year
    · have hcum : ((_patched_mdays year).take ((12:Int) - 1).toNat).sum = 335 := by
        rw [_patched_mdays, if_pos hl]; decide
      rw [hcum]
      norm_num [month_len_spec, hl]
    · have hcum : ((_patched_mdays year).take ((12:Int) - 1).toNat).sum = 334 := by
        rw [_patched_mdays, if_neg hl]; decide
      rw [hcum]
      norm_num [month_len_spec, hl]

theorem yearLoop_at (D Y r : Int) (hD : 0 ≤ D) (hY : 1970 ≤ Y) (hr : 0 ≤ r)
    (hrY : r < year_days Y) (hrep : days_in_years 1970 Y + r = D) :
    yearLoop D 1970 = (Y, r) := by
  obtain ⟨h1, h2, h3, h4⟩ := yearLoop_spec D.toNat D 1970 rfl hD
  obtain ⟨ha, hb⟩ := year_rep_unique h1 hY h2 h3 hr hrY (by omega)
  rw [Prod.ext_iff]
  exact ⟨ha, hb⟩

/-- C10: for every explicitly supplied seconds argument, the broken-down time
returned by the raw-seconds decomposition path (`localtime`) has DST flag
`tm_isdst = 0`; no DST inference from the seconds or the resulting date is
ever attempted by this path. -/
theorem localtime_isdst_zero (s : Int) : (localtime s).tm_isdst = 0 := rfl

/-- C6: `gmtime` on an explicitly supplied seconds argument returns exactly
the same `struct_time` as `localtime` on that argument; it performs no
UTC-versus-local conversion and applies no offset of its own. -/
theorem gmtime_eq_localtime (s : Int) : gmtime s = localtime s := rfl

/-- C2: for every nonnegative integer `s` and any fixed timezone state,
`mktime (localtime s)` returns exactly `s` plus the applied UTC offset in
seconds — the standard bias only, since `localtime` reports DST flag 0 — and
therefore differs from `s` whenever that effective offset is nonzero. -/
theorem mktime_localtime_offset_roundtrip (tzi : TZInfo) (s : Int) (hs : 0 ≤ s) :
    mktime tzi (localtime s) = s + tzi.Bias * 60 ∧
    (tzi.Bias * 60 ≠ 0 → mktime tzi (localtime s) ≠ s) := by
  obtain ⟨hY, hM1, hM2, hd1, hd2, hh, hmi, hse, hrep, hw, hyd, hdst⟩ := localtime_main s hs
  have hmain : mktime tzi (localtime s) = s + tzi.Bias * 60 := by
    simp only [mktime]
    rw [hdst]
    simp only [_get_local_utc_offset_seconds]
    rw [if_neg (by norm_num)]
    rw [hh, hmi, hse]
    omega
  exact ⟨hmain, fun hne => by omega⟩

/-- Witness for the C2 theorem at `s = 0` with a timezone whose standard bias
is 300 minutes. -/
theorem mktime_localtime_offset_roundtrip_witness :
    0 ≤ (0 : Int) ∧ mktime ⟨300, -60⟩ (localtime 0) = 0 + (300 : Int) * 60 ∧
    mktime ⟨300, -60⟩ (localtime 0) ≠ 0 := by
  have h := mktime_localtime_offset_roundtrip ⟨300, -60⟩ 0 (by decide)
  exact ⟨by decide, h.1, h.2 (by decide)⟩

/-- C4: for every `s ≥ 0`, `localtime s` produces a day-of-year equal to the
day plus the lengths of the preceding months (February patched to 29 in leap
years), recomputed independently from the produced year/month/day, and a
weekday (0 = Monday) equal to `(s / 86400 + 3) % 7`, the weekday obtained by
counting whole days from the epoch (1970-01-01 was a Thursday). -/
theorem localtime_wday_yday_consistent (s : Int) (hs : 0 ≤ s) :
    (localtime s).tm_yday
      = yday_spec (localtime s).tm_year (localtime s).tm_mon (localtime s).tm_mday ∧
    (localtime s).tm_wday = (s / 86400 + 3) % 7 := by
  obtain ⟨hY, hM1, hM2, hd1, hd2, hh, hmi, hse, hrep, hw, hyd, hdst⟩ := localtime_main s hs
  constructor
  · rw [hyd]
    exact _calc_yday_eq_spec _ _ _ hM1 hM2
  · rw [hw, weekday_formula _ _ _ hM1 hM2]
    rw [days_in_years_closed _ hY] at hrep
    have h86 : s / 60 / 60 / 24 = s / 86400 := by omega
    omega

/-- Witness for the C4 theorem at `s = 86400` (1970-01-02, a Friday). -/
theorem localtime_wday_yday_consistent_witness :
    0 ≤ (86400 : Int) ∧
    ((localtime 86400).tm_yday
       = yday_spec (localtime 86400).tm_year (localtime 86400).tm_mon (localtime 86400).tm_mday ∧
     (localtime 86400).tm_wday = ((86400 : Int) / 86400 + 3) % 7) :=
  ⟨by decide, localtime_wday_yday_consistent 86400 (by decide)⟩

/-- C3 (failing-input evaluation): at the negative input `s = -1` the
decomposition completes without error but returns `tm_mday = 0` and
`tm_yday = 0`, outside the documented ranges day 1–31 and day-of-year 1–366
(the year stays 1970 and the month 1, so the result names the nonexistent
date 1970-01-00 instead of 1969-12-31). -/
theorem localtime_negative_seconds_out_of_range :
    localtime (-1) = structTimeNew ⟨1970, 1, 0, 23, 59, 59, 2, 0, 0⟩ ∧
    (localtime (-1)).tm_mday = 0 ∧ (localtime (-1)).tm_yday = 0 := by
  have hD : (-1 : Int) / 60 / 60 / 24 = -1 := by decide
  have hYL : yearLoop ((-1 : Int) / 60 / 60 / 24) 1970 = (1970, -1) := by
    rw [hD, yearLoop]
    norm_num [year_days, _is_leap]
  have hst : localtime (-1) = structTimeNew ⟨1970, 1, 0, 23, 59, 59, 2, 0, 0⟩ := by
    simp only [localtime, hYL]
    decide
  exact ⟨hst, by rw [hst]; rfl, by rw [hst]; rfl⟩

/-- C5: `localtime` yields month 2 together with day 29 only when the
resolved year is a leap year under the `_is_leap` rule; concretely, the last
second of 2024-02-28 and the first second of 2024-02-29 straddle the day
boundary in the leap year 2024, while 2023 is not leap. -/
theorem localtime_feb29_only_leap :
    (∀ s : Int, 0 ≤ s → (localtime s).tm_mon = 2 → (localtime s).tm_mday = 29 →
      _is_leap (localtime s).tm_year = true) ∧
    (localtime 1709164799).tm_year = 2024 ∧ (localtime 1709164799).tm_mon = 2 ∧
    (localtime 1709164799).tm_mday = 28 ∧
    (localtime 1709164800).tm_year = 2024 ∧ (localtime 1709164800).tm_mon = 2 ∧
    (localtime 1709164800).tm_mday = 29 ∧
    _is_leap 2024 = true ∧ _is_leap 2023 = false := by
  have hst1 : localtime 1709164799 = structTimeNew ⟨2024, 2, 28, 23, 59, 59, 2, 59, 0⟩ := by
    have hD : (1709164799 : Int) / 60 / 60 / 24 = 19781 := by decide
    have hYL : yearLoop ((1709164799 : Int) / 60 / 60 / 24) 1970 = (2024, 58) := by
      rw [hD]
      exact yearLoop_at 19781 2024 58 (by decide) (by decide) (by decide) (by decide) (by decide)
    simp only [localtime, hYL]
    decide
  have hst2 : localtime 1709164800 = structTimeNew ⟨2024, 2, 29, 0, 0, 0, 3, 60, 0⟩ := by
    have hD : (1709164800 : Int) / 60 / 60 / 24 = 19782 := by decide
    have hYL : yearLoop ((1709164800 : Int) / 60 / 60 / 24) 1970 = (2024, 59) := by
      rw [hD]
      exact yearLoop_at 19782 2024 59 (by decide) (by decide) (by decide) (by decide) (by decide)
    simp only [localtime, hYL]
    decide
  refine ⟨?_, by rw [hst1]; rfl, by rw [hst1]; rfl, by rw [hst1]; rfl, by rw [hst2]; rfl,
    by rw [hst2]; rfl, by rw [hst2]; rfl, by decide, by decide⟩
  intro s hs h2 h29
  obtain ⟨hY, hM1, hM2, hd1, hd2, _, _, _, _, _, _, _⟩ := localtime_main s hs
  by_contra hnl
  rw [h2, h29] at hd2
  have h28 : (_patched_mdays (localtime s).tm_year).getD ((2 : Int) - 1).toNat 0 = 28 := by
    rw [_patched_mdays, if_neg hnl]
    decide
  omega

/-- Witness for the C5 theorem: its universally quantified part applied to
the first second of 2024-02-29, with the hypotheses discharged by the
theorem's own concrete conjuncts. -/
theorem localtime_feb29_only_leap_witness :
    (0 ≤ (1709164800 : Int) ∧ (localtime 1709164800).tm_mon = 2 ∧
     (localtime 1709164800).tm_mday = 29) ∧
    _is_leap (localtime 1709164800).tm_year = true := by
  have h := localtime_feb29_only_leap
  exact ⟨⟨by decide, h.2.2.2.2.2.1, h.2.2.2.2.2.2.1⟩,
    h.1 1709164800 (by decide) h.2.2.2.2.2.1 h.2.2.2.2.2.2.1⟩

/-- C1 (failing-input evaluation): a `struct_time` constructed from a 9-tuple
is an empty tuple carrying nine named attributes: its length is 0 rather
than 9, indexing position 0 yields nothing (an IndexError in Python), any
two `struct_time` values compare equal regardless of their fields, and the
strict comparison is always false — while the named attributes do hold the
supplied values. -/
theorem struct_time_sequence_code_bug :
    (structTimeNew ⟨1998, 6, 6, 16, 26, 11, 5, 157, 0⟩).items.length = 0 ∧
    (structTimeNew ⟨1998, 6, 6, 16, 26, 11, 5, 157, 0⟩).items.get? 0 = none ∧
    pyTupleEq (structTimeNew ⟨1998, 6, 6, 16, 26, 11, 5, 157, 0⟩)
      (structTimeNew ⟨2024, 1, 1, 0, 0, 0, 0, 1, 0⟩) = true ∧
    pyTupleLt (structTimeNew ⟨1998, 6, 6, 16, 26, 11, 5, 157, 0⟩)
      (structTimeNew ⟨2024, 1, 1, 0, 0, 0, 0, 1, 0⟩) = false ∧
    (structTimeNew ⟨1998, 6, 6, 16, 26, 11, 5, 157, 0⟩).tm_year = 1998 ∧
    (structTimeNew ⟨1998, 6, 6, 16, 26, 11, 5, 157, 0⟩).tm_isdst = 0 := by
  decide

/-- C7: `strftime` is a single left-to-right pass: a `%`-code pair whose code
is in the handler table is replaced by that handler's rendering, a pair with
an unknown code is emitted literally as `%<code>` without raising, any other
character — including a lone `%` as the last character — passes through
unchanged; concretely, `%Y-%m-%d` on year 1998, month 6, day 6 renders
`1998-06-06` and the unknown `%Q` renders `%Q`. -/
theorem strftime_single_pass_spec :
    (∀ (tm : struct_time) (c : Char) (fn : struct_time → String) (rest : List Char),
        _strtime_handlers c = some fn →
        strftimeList tm ('%' :: c :: rest) = fn tm ++ strftimeList tm rest) ∧
    (∀ (tm : struct_time) (c : Char) (rest : List Char),
        _strtime_handlers c = none →
        strftimeList tm ('%' :: c :: rest)
          = "%" ++ String.singleton c ++ strftimeList tm rest) ∧
    (∀ (tm : struct_time) (c : Char) (rest : List Char), c ≠ '%' →
        strftimeList tm (c :: rest) = String.singleton c ++ strftimeList tm rest) ∧
    (∀ tm : struct_time, strftimeList tm ['%'] = "%") ∧
    strftime "%Y-%m-%d" (structTimeNew ⟨1998, 6, 6, 16, 26, 11, 5, 157, 0⟩)
      = "1998-06-06" ∧
    strftime "%Q" (structTimeNew ⟨1998, 6, 6, 16, 26, 11, 5, 157, 0⟩) = "%Q" := by
  refine ⟨?_, ?_, ?_, fun tm => rfl, by decide, by decide⟩
  · intro tm c fn rest hfn
    rw [strftimeList, hfn]
  · intro tm c rest hfn
    rw [strftimeList, hfn]
  · intro tm c rest hc
    rw [strftimeList.eq_def]
    split
    · rename_i h
      simp at h
    · rename_i c2 r2 h
      injection h with h1 h2
      exact absurd h1 hc
    · rename_i c2 r2 h
      injection h with h1 h2
      rw [h1, h2]

/-- Witness for the C7 theorem: its quantified conjuncts applied at the
handler code `Y`, the unknown code `Q` and the plain character `x`. -/
theorem strftime_single_pass_spec_witness :
    (_strtime_handlers 'Y' = some (fun tm => toString tm.tm_year) ∧
     strftimeList (structTimeNew ⟨1998, 6, 6, 16, 26, 11, 5, 157, 0⟩) ['%', 'Y']
       = (fun tm : struct_time => toString tm.tm_year)
           (structTimeNew ⟨1998, 6, 6, 16, 26, 11, 5, 157, 0⟩)
         ++ strftimeList (structTimeNew ⟨1998, 6, 6, 16, 26, 11, 5, 157, 0⟩) []) ∧
    (_strtime_handlers 'Q' = none ∧
     strftimeList (structTimeNew ⟨1998, 6, 6, 16, 26, 11, 5, 157, 0⟩) ['%', 'Q']
       = "%" ++ String.singleton 'Q'
         ++ strftimeList (structTimeNew ⟨1998, 6, 6, 16, 26, 11, 5, 157, 0⟩) []) ∧
    ('x' ≠ '%' ∧
     strftimeList (structTimeNew ⟨1998, 6, 6, 16, 26, 11, 5, 157, 0⟩) ['x']
       = String.singleton 'x'
         ++ strftimeList (structTimeNew ⟨1998, 6, 6, 16, 26, 11, 5, 157, 0⟩) []) := by
  have h := strftime_single_pass_spec
  exact ⟨⟨rfl, h.1 _ 'Y' _ [] rfl⟩, ⟨rfl, h.2.1 _ 'Q' [] rfl⟩,
    ⟨by decide, h.2.2.1 _ 'x' [] (by decide)⟩⟩

/-- C8: `get_clock_info` reports an invalid-argument `ValueError`, not an OS
error, for every name outside the known clock identifiers (compared after
lowercasing), and for `monotonic` it returns metadata with resolution
`1/frequency`, adjustable false, implementation `QueryPerformanceCounter`
and monotonic true; the lookup is a pure function of the name and the
frequency measured once at startup. -/
theorem get_clock_info_spec :
    (∀ (f : ℚ) (name : String),
        pyLower name ∉
          (["monotonic", "perf_counter", "process_time", "thread_time", "time"] : List String) →
        get_clock_info f name
          = .error (.valueError ("unknown clock: " ++ pyLower name))) ∧
    (∀ f : ℚ, get_clock_info f "monotonic"
        = .ok ⟨1 / f, false, "QueryPerformanceCounter", true⟩) := by
  constructor
  · intro f name h
    simp only [List.mem_cons, not_or] at h
    obtain ⟨h1, h2, h3, h4, h5, h6⟩ := h
    simp only [get_clock_info]
    rw [if_neg (not_or.mpr ⟨h1, h2⟩), if_neg h3, if_neg h4, if_neg h5]
  · intro f
    have hlow : pyLower "monotonic" = "monotonic" := by decide
    simp only [get_clock_info, hlow]
    rw [if_pos (Or.inl trivial)]

/-- Witness for the C8 theorem at the unknown name `bogus` and frequency 5. -/
theorem get_clock_info_spec_witness :
    (pyLower "bogus" ∉
       (["monotonic", "perf_counter", "process_time", "thread_time", "time"] : List String) ∧
     get_clock_info 5 "bogus"
       = .error (.valueError ("unknown clock: " ++ pyLower "bogus"))) ∧
    get_clock_info 5 "monotonic" = .ok ⟨1 / 5, false, "QueryPerformanceCounter", true⟩ := by
  have h := get_clock_info_spec
  exact ⟨⟨by decide, h.1 5 "bogus" (by decide)⟩, h.2 5⟩

/-- C9: every `_ns` clock variant is exactly `int(seconds_variant() * 10^9)`
with truncation toward zero, not rounding, for any sampled reading of the
underlying seconds clock, and `perf_counter_ns` is the same function as
`monotonic_ns`; the concrete evaluations show the truncation (rounding
`2/3 * 10^9` would end in `...667`, truncation ends in `...666`). -/
theorem ns_variants_truncation :
    (∀ c f : Int, monotonic_ns c f = pyInt (monotonic c f * 1000000000)) ∧
    (∀ a b c d : Int, process_time_ns a b c d = pyInt (process_time a b c d * 1000000000)) ∧
    (∀ a b c d : Int, thread_time_ns a b c d = pyInt (thread_time a b c d * 1000000000)) ∧
    (∀ a b : Int, time_ns a b = pyInt (time a b * 1000000000)) ∧
    perf_counter_ns = monotonic_ns ∧
    (∀ q : ℚ, pyInt q = if 0 ≤ q then ⌊q⌋ else ⌈q⌉) ∧
    monotonic_ns 2 3 = 666666666 ∧
    pyInt (19 / 10) = 1 ∧
    pyInt (-19 / 10) = -1 := by
  refine ⟨fun _ _ => rfl, fun _ _ _ _ => rfl, fun _ _ _ _ => rfl, fun _ _ => rfl, rfl,
    fun _ => rfl, ?_, ?_, ?_⟩
  · simp only [monotonic_ns, monotonic, pyInt]
    rw [if_pos (by norm_num)]
    norm_num
  · simp only [pyInt]
    rw [if_pos (by norm_num)]
    norm_num
  · simp only [pyInt]
    rw [if_neg (by norm_num)]
    rw [show (-19 : ℚ) / 10 = -(19 / 10) by norm_num, Int.ceil_neg]
    norm_num
